import Mathlib

/-!
Verification development for the civinigrani analytical core.

We give a shallow embedding, in Lean 4, of the analytical pipeline of the
repository: the PRGI (Policy Reality Gap Index) computation (`src/prgi.py`),
the high-risk ranker (`src/prgi.py`), the grievance signal loader
(`src/pgsm.py`), the grievance spike detector
(`src/validation/pgsm_validator.py`), the rule-based anomaly pass
(`src/ml/anomaly_detector.py`), and the PeerLens comparison engine
(`src/intelligence/peerlens.py`).

Pandas DataFrames are modelled as a list of rows, each row an association
list from (already aligned) column names to cells; a cell is a string, a
rational number, or null (NaN/NaT).  Machine floats are modelled by `ℚ`:
every quantity manipulated by the claims is the result of small sums,
differences, divisions and comparisons, which ℚ performs exactly.
Exceptions are modelled with `Except`, caught at the public entry points.
-/

namespace CiviNigrani

/-! ## Table model -/

/-- A single cell of a pandas table: a string, a number, or NaN/NaT. -/
inductive Cell where
  | str (s : String)
  | num (q : ℚ)
  | null
deriving DecidableEq, Repr

/-- A row: association list from column name to cell (first binding wins,
matching a pandas row where each column holds one value). -/
abbrev Row := List (String × Cell)

/-- A pandas DataFrame: a column list plus rows keyed by column name. -/
structure DataFrame where
  cols : List String
  rows : List Row
deriving DecidableEq, Repr

/-- Reading a cell: a key absent from the row is a missing value (NaN). -/
def cellAt (r : Row) (c : String) : Cell := (r.lookup c).getD Cell.null

/-- Strip leading and trailing whitespace from a character list. -/
def stripChars (l : List Char) : List Char :=
  ((l.dropWhile Char.isWhitespace).reverse.dropWhile Char.isWhitespace).reverse

/-- Python `s.lower().strip()`. -/
def pyLowerStrip (s : String) : String :=
  String.mk (stripChars (s.toList.map Char.toLower))

/-- Python `c.lower().strip()` applied to a column name. -/
def normName (s : String) : String := pyLowerStrip s

/-- Python `x in s` substring test on strings. -/
def containsSub (s pat : String) : Bool :=
  (List.range (s.toList.length + 1)).any fun i =>
    pat.toList.isPrefixOf (s.toList.drop i)

/-- Python `str(cell)` as pandas renders it (`astype(str)`); NaN prints
as the string nan. -/
def pyStr : Cell → String
  | Cell.str s => s
  | Cell.num q => toString q
  | Cell.null => "nan"

/-- Split a character list on a separator character (Python `str.split`
with a one-character separator; the result is always nonempty). -/
def splitOnChar (sep : Char) : List Char → List (List Char)
  | [] => [[]]
  | c :: cs =>
    match splitOnChar sep cs with
    | [] => [[c]]
    | h :: t => if c == sep then [] :: h :: t else (c :: h) :: t

/-- Nonempty run of decimal digits. -/
def isDigitsL (l : List Char) : Bool := l ≠ [] && l.all Char.isDigit

/-- Numeric value of a digit run (callers guard with `isDigitsL`). -/
def digitsValL (l : List Char) : ℕ :=
  l.foldl (fun a c => a * 10 + (c.toNat - 48)) 0

/-- Calendar day encoded so that the usual order on ℕ is date order. -/
def encodeDate (y m d : ℕ) : ℕ := y * 10000 + m * 100 + d

/-- Modelled from pandas `pd.to_datetime(_, errors="coerce")` on the date
strings this repository feeds it (ISO `YYYY-MM-DD` / `YYYY-MM`); any cell
that is not such a string coerces to NaT, i.e. `none`. -/
def parseDate (c : Cell) : Option ℕ :=
  match c with
  | Cell.str s =>
    match splitOnChar '-' (stripChars s.toList) with
    | [y, m, d] =>
      if isDigitsL y && isDigitsL m && isDigitsL d &&
         y.length == 4 &&
         decide (1 ≤ digitsValL m) && decide (digitsValL m ≤ 12) &&
         decide (1 ≤ digitsValL d) && decide (digitsValL d ≤ 31) then
        some (encodeDate (digitsValL y) (digitsValL m) (digitsValL d))
      else none
    | [y, m] =>
      if isDigitsL y && isDigitsL m && y.length == 4 &&
         decide (1 ≤ digitsValL m) && decide (digitsValL m ≤ 12) then
        some (encodeDate (digitsValL y) (digitsValL m) 1)
      else none
    | _ => none
  | _ => none

/-- Modelled from pandas `pd.to_numeric(_, errors="coerce")`: numbers pass
through, decimal strings (optional sign, optional fraction) parse, anything
else coerces to NaN (`none`). -/
def parseNum (c : Cell) : Option ℚ :=
  match c with
  | Cell.num q => some q
  | Cell.null => none
  | Cell.str s =>
    let t := stripChars s.toList
    let signed : ℚ × List Char :=
      match t with
      | '-' :: rest => (-1, rest)
      | _ => (1, t)
    match splitOnChar '.' signed.2 with
    | [a] => if isDigitsL a then some (signed.1 * (digitsValL a : ℚ)) else none
    | [a, b] =>
      if isDigitsL a && isDigitsL b then
        some (signed.1 *
          ((digitsValL a : ℚ) + (digitsValL b : ℚ) / (10 ^ b.length)))
      else none
    | _ => none

/-- Mean of a list of rationals (`sum/len`; 0 on the empty list, where
pandas would give NaN — callers only use it on nonempty groups). -/
def listMean (l : List ℚ) : ℚ := l.sum / (l.length : ℚ)

/-- Lexicographic strict order on character lists by code point. -/
def strLtList : List Char → List Char → Bool
  | [], [] => false
  | [], _ :: _ => true
  | _ :: _, [] => false
  | a :: as, b :: bs =>
    if a.val < b.val then true
    else if b.val < a.val then false
    else strLtList as bs

/-- The lexicographic string order pandas uses when sorting by a string
column. -/
def strLt (a b : String) : Bool := strLtList a.toList b.toList

/-! ## Spike detector (`src/validation/pgsm_validator.py`) -/

/-- `PGSM_SPIKE_THRESHOLD = 1.5` from `pgsm_validator.py`. -/
def PGSM_SPIKE_THRESHOLD : ℚ := 3 / 2

/-- `MIN_HISTORICAL_MONTHS = 3` from `pgsm_validator.py`. -/
def MIN_HISTORICAL_MONTHS : ℕ := 3

/-- One input row of `detect_pgsm_spikes`. -/
structure GrievanceRecord where
  district_name : String
  month : ℕ
  complaints : ℚ
deriving DecidableEq, Repr

/-- One output row of `detect_pgsm_spikes`. -/
structure SpikeRow where
  district_name : String
  month : ℕ
  complaints : ℚ
  baseline : ℚ
  spike_threshold : ℚ
  is_spike : Bool
deriving DecidableEq, Repr

/-- Pandas `Series.rolling(window=3, min_periods=1).mean()`: at index `i`
the mean of the trailing window of up to 3 entries ending at `i`. -/
def rollingMean3 (xs : List ℚ) : List ℚ :=
  (List.range xs.length).map fun i =>
    let w := (xs.take (i + 1)).drop (i + 1 - MIN_HISTORICAL_MONTHS)
    listMean w

/-- `result.sort_values([district_name, month])` — a stable sort on the
(district, month) key. -/
def sortGrievances (rows : List GrievanceRecord) : List GrievanceRecord :=
  List.insertionSort
    (fun a b => strLt a.district_name b.district_name = true ∨
      (a.district_name = b.district_name ∧ a.month ≤ b.month)) rows

/-- Attach `baseline`, `spike_threshold` and `is_spike` to one district
group, per lines 218–226 of `pgsm_validator.py`. -/
def addBaselines (g : List GrievanceRecord) : List SpikeRow :=
  (g.zip (rollingMean3 (g.map (·.complaints)))).map fun p =>
    { district_name := p.1.district_name
      month := p.1.month
      complaints := p.1.complaints
      baseline := p.2
      spike_threshold := p.2 * PGSM_SPIKE_THRESHOLD
      is_spike := decide (p.1.complaints > p.2 * PGSM_SPIKE_THRESHOLD) }

/-- `detect_pgsm_spikes` (`pgsm_validator.py` lines 192–233): sort by
(district, month); per district, baseline is the trailing rolling mean
(window 3, min period 1) of complaints, threshold is 1.5 × baseline and a
spike is a count strictly above the threshold.  After the sort the district
groups are contiguous, so the pandas groupby-transform output is the
concatenation of the per-group results in district order. -/
def detect_pgsm_spikes (grievances : List GrievanceRecord) : List SpikeRow :=
  let s := sortGrievances grievances
  ((s.map (·.district_name)).dedup).flatMap fun d =>
    addBaselines (s.filter fun r => decide (r.district_name = d))

/-! ### Claim C3 -/

/-- Evaluation of the spike detector on the single-district 3-month
series [10, 10, 30]. -/
theorem C3_example_eval :
    detect_pgsm_spikes
        [⟨"lucknow", 1, 10⟩, ⟨"lucknow", 2, 10⟩, ⟨"lucknow", 3, 30⟩] =
      [⟨"lucknow", 1, 10, 10, 15, false⟩,
       ⟨"lucknow", 2, 10, 10, 15, false⟩,
       ⟨"lucknow", 3, 30, 50 / 3, 25, true⟩] := by
  norm_num [detect_pgsm_spikes, sortGrievances, addBaselines, rollingMean3,
    listMean, List.insertionSort, List.orderedInsert, List.range_succ,
    PGSM_SPIKE_THRESHOLD, MIN_HISTORICAL_MONTHS]

/-- **C3.** `detect_pgsm_spikes` computes, per district of the
(district, month)-sorted series, `baseline` as the trailing rolling mean of
the complaint counts with window 3 and minimum period 1,
`spike_threshold = baseline * 1.5`, and `is_spike` exactly when the count
strictly exceeds the threshold.  The rolling mean is causal — the prefix of
the baselines of a series is unchanged by appending later data, and the
first baseline is the first count itself — and on the single-district
3-month series [10, 10, 30] the third baseline is (10+10+30)/3 = 50/3. -/
theorem C3_detect_pgsm_spikes_baseline :
    (∀ rows r, r ∈ detect_pgsm_spikes rows →
      r.spike_threshold = r.baseline * (3 / 2) ∧
      (r.is_spike = true ↔ r.complaints > r.spike_threshold)) ∧
    (∀ xs ys : List ℚ, (rollingMean3 (xs ++ ys)).take xs.length = rollingMean3 xs) ∧
    (∀ (x : ℚ) (xs : List ℚ), (rollingMean3 (x :: xs)).head? = some x) ∧
    ((detect_pgsm_spikes
        [⟨"lucknow", 1, 10⟩, ⟨"lucknow", 2, 10⟩, ⟨"lucknow", 3, 30⟩]).map
        (fun r => (r.baseline, r.is_spike)) =
      [(10, false), (10, false), (50 / 3, true)]) := by
  refine ⟨?_, ?_, ?_, ?_⟩
  · intro rows r hr
    simp only [detect_pgsm_spikes, List.mem_flatMap, addBaselines, List.mem_map] at hr
    obtain ⟨d, -, p, -, rfl⟩ := hr
    exact ⟨rfl, by simp [PGSM_SPIKE_THRESHOLD]⟩
  · intro xs ys
    simp only [rollingMean3, List.length_append, ← List.map_take,
      List.take_range]
    have hmin : min xs.length (xs.length + ys.length) = xs.length := by omega
    rw [hmin]
    refine List.map_congr_left fun i hi => ?_
    have h1 : i + 1 ≤ xs.length := by
      simpa [Nat.succ_le_iff] using List.mem_range.mp hi
    rw [List.take_append_of_le_length h1]
  · intro x xs
    simp [rollingMean3, List.range_succ_eq_map, listMean, MIN_HISTORICAL_MONTHS]
  · rw [C3_example_eval]
    norm_num

/-- Witness for C3: the first conjunct applied to the concrete 3-month
series, on its spike row. -/
theorem C3_witness :
    ∃ r ∈ detect_pgsm_spikes
        [⟨"lucknow", 1, 10⟩, ⟨"lucknow", 2, 10⟩, ⟨"lucknow", 3, 30⟩],
      r.spike_threshold = r.baseline * (3 / 2) ∧
      (r.is_spike = true ↔ r.complaints > r.spike_threshold) := by
  have hm : (⟨"lucknow", 3, 30, 50 / 3, 25, true⟩ : SpikeRow) ∈
      detect_pgsm_spikes
        [⟨"lucknow", 1, 10⟩, ⟨"lucknow", 2, 10⟩, ⟨"lucknow", 3, 30⟩] := by
    rw [C3_example_eval]; simp
  exact ⟨_, hm, C3_detect_pgsm_spikes_baseline.1 _ _ hm⟩

/-! ## Rule-based anomaly pass (`src/ml/anomaly_detector.py`) -/

/-- One record as seen by `detect_simple_anomalies`; a `none` field is a
column absent from the row (Python `row.get(key, 0)` then yields 0). -/
structure PDSRecord where
  prgi : Option ℚ
  allocation : Option ℚ
  distribution : Option ℚ
deriving DecidableEq, Repr

/-- Python `row.get(key, 0)`. -/
def rowGet (x : Option ℚ) : ℚ := x.getD 0

/-- Python `"; ".join(reasons)` (and `join` of the empty list is the empty
string, matching the explicit `else ""` in the source). -/
def joinReasons : List String → String
  | [] => ""
  | [r] => r
  | r :: rest => r ++ "; " ++ joinReasons rest

/-- The reason list built by `check_simple_anomalies`
(`anomaly_detector.py` lines 234–257), in source order. -/
def check_simple_anomalies (row : PDSRecord) : List String :=
  (if rowGet row.prgi ≥ 99 / 100 then ["100% delivery gap"] else []) ++
  (if rowGet row.allocation > 0 ∧ rowGet row.distribution = 0 then
    ["No distribution"] else []) ++
  (if rowGet row.allocation > 1000000 then
    ["Unusually high allocation"] else []) ++
  (if rowGet row.allocation < 0 ∨ rowGet row.distribution < 0 then
    ["Negative values"] else []) ++
  (if rowGet row.distribution > rowGet row.allocation then
    ["Distribution exceeds allocation"] else [])

/-- The `simple_anomaly` column: the joined reason string. -/
def simple_anomaly (row : PDSRecord) : String :=
  joinReasons (check_simple_anomalies row)

/-- The `is_simple_anomaly` column: `simple_anomaly != ""`. -/
def is_simple_anomaly (row : PDSRecord) : Bool :=
  simple_anomaly row != ""

/-- `detect_simple_anomalies`: a row-wise map attaching the two columns. -/
def detect_simple_anomalies (rows : List PDSRecord) :
    List (PDSRecord × String × Bool) :=
  rows.map fun r => (r, simple_anomaly r, is_simple_anomaly r)

/-! ### Claim C8 -/

/-- **C8.** `detect_simple_anomalies` flags a record (with a reason naming
the triggered rule) exactly when one of the five rules fires: PRGI ≥ 0.99,
allocation > 0 with distribution = 0, allocation above the 10⁶ magnitude
threshold, a negative quantity, or distribution strictly above allocation.
A record with allocation 1000 and distribution 1200 is flagged with reason
"Distribution exceeds allocation", and simultaneous triggers concatenate. -/
theorem C8_detect_simple_anomalies_rules :
    (∀ rows r rsn flag, (r, rsn, flag) ∈ detect_simple_anomalies rows →
      rsn = simple_anomaly r ∧ flag = is_simple_anomaly r) ∧
    (∀ row : PDSRecord, is_simple_anomaly row = true ↔
      (rowGet row.prgi ≥ 99 / 100 ∨
       (rowGet row.allocation > 0 ∧ rowGet row.distribution = 0) ∨
       rowGet row.allocation > 1000000 ∨
       (rowGet row.allocation < 0 ∨ rowGet row.distribution < 0) ∨
       rowGet row.distribution > rowGet row.allocation)) ∧
    (∀ row : PDSRecord,
      (rowGet row.prgi ≥ 99 / 100 →
        "100% delivery gap" ∈ check_simple_anomalies row) ∧
      (rowGet row.allocation > 0 ∧ rowGet row.distribution = 0 →
        "No distribution" ∈ check_simple_anomalies row) ∧
      (rowGet row.allocation > 1000000 →
        "Unusually high allocation" ∈ check_simple_anomalies row) ∧
      (rowGet row.allocation < 0 ∨ rowGet row.distribution < 0 →
        "Negative values" ∈ check_simple_anomalies row) ∧
      (rowGet row.distribution > rowGet row.allocation →
        "Distribution exceeds allocation" ∈ check_simple_anomalies row)) ∧
    (simple_anomaly ⟨none, some 1000, some 1200⟩ =
        "Distribution exceeds allocation" ∧
      is_simple_anomaly ⟨none, some 1000, some 1200⟩ = true) ∧
    (simple_anomaly ⟨none, some (-5), some 0⟩ =
      "Negative values; Distribution exceeds allocation") := by
  refine ⟨?_, ?_, ?_, ?_, ?_⟩
  · intro rows r rsn flag h
    simp only [detect_simple_anomalies, List.mem_map] at h
    obtain ⟨a, -, ha⟩ := h
    obtain ⟨rfl, rfl, rfl⟩ := Prod.mk.injEq .. ▸ ha
    exact ⟨rfl, rfl⟩
  · intro row
    unfold is_simple_anomaly simple_anomaly check_simple_anomalies
    split <;> split <;> split <;> split <;> split <;>
      simp_all [joinReasons]
  · intro row
    unfold check_simple_anomalies
    refine ⟨?_, ?_, ?_, ?_, ?_⟩ <;> intro h <;> simp [h]
  · constructor
    · norm_num [simple_anomaly, check_simple_anomalies, rowGet, joinReasons]
    · norm_num [is_simple_anomaly, simple_anomaly, check_simple_anomalies,
        rowGet, joinReasons]
      decide
  · norm_num [simple_anomaly, check_simple_anomalies, rowGet, joinReasons]
    decide

/-- Witness for C8: the reason-membership conjunct and the flag
equivalence, at the concrete record (allocation 1000, distribution 1200). -/
theorem C8_witness :
    "Distribution exceeds allocation" ∈
        check_simple_anomalies ⟨none, some 1000, some 1200⟩ ∧
      is_simple_anomaly ⟨none, some 1000, some 1200⟩ = true := by
  constructor
  · exact (C8_detect_simple_anomalies_rules.2.2.1
      ⟨none, some 1000, some 1200⟩).2.2.2.2 (by norm_num [rowGet])
  · exact (C8_detect_simple_anomalies_rules.2.1
      ⟨none, some 1000, some 1200⟩).mpr (by norm_num [rowGet])

/-! ## PeerLens engine (`src/intelligence/peerlens.py`)

The engine is embedded from its prepared frame onward: `analyze_district`,
`_select_peers` and `_interpret` operate on the frame produced by
`_prepare_dataframe`, one row per district with the columns district, prgi,
allocation, population, grievance_density and resolution_rate.  A `none`
field is a NaN cell; every pandas comparison against NaN is false, and
`Series.median()` skips NaN entries. -/

/-- One row of the prepared PeerLens frame. -/
structure PeerRow where
  district : String
  prgi : Option ℚ
  allocation : Option ℚ
  population : Option ℚ
  grievance_density : Option ℚ
  resolution_rate : Option ℚ
deriving DecidableEq, Repr

/-- The `PeerLens` object: prepared frame plus the tolerances `alpha`,
`beta` and the `min_peers` gate from the constructor. -/
structure PeerLens where
  df : List PeerRow
  alpha : ℚ
  beta : ℚ
  min_peers : ℕ
deriving DecidableEq, Repr

/-- `PeerLens.GOOD_THRESHOLD = 0.90`. -/
def GOOD_THRESHOLD : ℚ := 9 / 10

/-- `PeerLens.BAD_THRESHOLD = 1.10`. -/
def BAD_THRESHOLD : ℚ := 11 / 10

/-- One similarity condition `abs(x_i - t)/t ≤ tol`; false on NaN, as in
pandas. -/
def optCondLe (x : Option ℚ) (t tol : ℚ) : Bool :=
  match x with
  | some v => decide (|v - t| / t ≤ tol)
  | none => false

/-- `PeerLens._select_peers` (`peerlens.py` lines 137–165): population and
allocation tolerance filtering, with the allocation-only fallback when the
target has no usable population, and no peers at all when the target has no
usable allocation. -/
def select_peers (pl : PeerLens) (target : PeerRow) : List PeerRow :=
  let fallback : List PeerRow :=
    match target.allocation with
    | none => []
    | some alloc =>
      if alloc ≤ 0 then []
      else pl.df.filter fun r =>
        decide (r.district ≠ target.district) &&
        optCondLe r.allocation alloc pl.beta
  match target.population, target.allocation with
  | some pop, some alloc =>
    if pop ≤ 0 ∨ alloc ≤ 0 then fallback
    else pl.df.filter fun r =>
      decide (r.district ≠ target.district) &&
      optCondLe r.population pop pl.alpha &&
      optCondLe r.allocation alloc pl.beta
  | _, _ => fallback

/-- Pandas `Series.median()` on the non-NaN entries: middle of the sorted
values, or the average of the two middles. -/
def median (l : List ℚ) : Option ℚ :=
  let s := List.insertionSort (fun a b : ℚ => a ≤ b) l
  if s.length = 0 then none
  else if s.length % 2 = 1 then some (s.getD (s.length / 2) 0)
  else some ((s.getD (s.length / 2 - 1) 0 + s.getD (s.length / 2) 0) / 2)

/-- The interpretation record returned by `PeerLens._interpret`. -/
structure Interpretation where
  delivery_gap : String
  grievance_pressure : String
  resolution_capacity : String
deriving DecidableEq, Repr

/-- The inner `classify` of `PeerLens._interpret` (`peerlens.py` lines
268–283). -/
def classify (value : Option ℚ) (lower_is_better : Bool) : String :=
  match value with
  | none => "Insufficient data"
  | some v =>
    if lower_is_better then
      if v < GOOD_THRESHOLD then "Better than peers"
      else if v > BAD_THRESHOLD then "Worse than peers"
      else "Comparable to peers"
    else
      if v > BAD_THRESHOLD then "Better than peers"
      else if v < GOOD_THRESHOLD then "Worse than peers"
      else "Comparable to peers"

/-- `PeerLens._interpret`: delivery gap and grievance pressure are
lower-is-better, resolution capacity is higher-is-better. -/
def interpret (prgi_rel grievance_rel resolution_rel : Option ℚ) :
    Interpretation :=
  ⟨classify prgi_rel true, classify grievance_rel true,
    classify resolution_rel false⟩

/-- Python `str.title()` on a district name. -/
def titleChars : Bool → List Char → List Char
  | _, [] => []
  | prevAlpha, c :: cs =>
    (if c.isAlpha then (if prevAlpha then c.toLower else c.toUpper) else c) ::
      titleChars c.isAlpha cs

/-- Python `str.title()`. -/
def strTitle (s : String) : String := String.mk (titleChars false s.toList)

/-- The three result shapes of `PeerLens.analyze_district`. -/
inductive AnalyzeResult where
  | error (msg : String)
  | invalid (district : String) (peer_count : ℕ) (note : String)
  | valid (district : String) (peer_count : ℕ)
      (prgi_relative grievance_relative resolution_relative : Option ℚ)
      (peer_districts : List String) (interpretation : Interpretation)
deriving DecidableEq, Repr

/-- The note returned when too few peers qualify (quoting the f-string of
`peerlens.py` line 201). -/
def fewPeersNote (peer_count : ℕ) : String :=
  "Only " ++ toString peer_count ++
    " comparable peers found. Adjust tolerances or reduce minimum peers."

/-- `PeerLens.analyze_district` (`peerlens.py` lines 177–238).  The target
is the first frame row whose district equals the lower-cased, stripped
query; ratios divide the target value by the peer median and are NaN
(`none`) when the median is missing or not positive.  (The apostrophes of
the not-found message are omitted: only its occurrence matters here.) -/
def analyze_district (pl : PeerLens) (district : String) : AnalyzeResult :=
  if pl.df = [] then .error "No data available"
  else
    let normalized := pyLowerStrip district
    match pl.df.find? (fun r => decide (r.district = normalized)) with
    | none => .error ("District " ++ district ++ " not found")
    | some target =>
      let peers := select_peers pl target
      let peer_count := peers.length
      if peer_count < pl.min_peers then
        .invalid district peer_count (fewPeersNote peer_count)
      else
        let peer_prgi := median (peers.filterMap (·.prgi))
        let peer_grievance := median (peers.filterMap (·.grievance_density))
        let peer_resolution := median (peers.filterMap (·.resolution_rate))
        let prgi_rel : Option ℚ :=
          match peer_prgi with
          | some m => if m > 0 then target.prgi.map (· / m) else none
          | none => none
        let grievance_rel : Option ℚ :=
          match peer_grievance with
          | some m => if m > 0 then target.grievance_density.map (· / m)
                      else none
          | none => none
        let resolution_rel : Option ℚ :=
          match peer_resolution with
          | some m => if m > 0 then target.resolution_rate.map (· / m)
                      else none
          | none => none
        .valid district peer_count prgi_rel grievance_rel resolution_rel
          (peers.map fun r => strTitle r.district)
          (interpret prgi_rel grievance_rel resolution_rel)

/-! ### Claims C4 and C5 -/

/-- Demo target district: prgi 0.40, population 100, allocation 100. -/
def demoTarget : PeerRow := ⟨"agra", some (2/5), some 100, some 100, none, some (1/2)⟩

/-- Demo peer: prgi 0.20, identical population and allocation. -/
def demoPeer1 : PeerRow := ⟨"ballia", some (1/5), some 100, some 100, none, some (1/2)⟩

/-- Demo peer: prgi 0.20, identical population and allocation. -/
def demoPeer2 : PeerRow := ⟨"corr", some (1/5), some 100, some 100, none, some (1/2)⟩

/-- Demo peer: prgi 0.20, identical population and allocation. -/
def demoPeer3 : PeerRow := ⟨"deoria", some (1/5), some 100, some 100, none, some (1/2)⟩

/-- **C4.** With `min_peers = 3`, for every target district found in the
prepared frame, `analyze_district` returns `comparison_valid = false`
together with the peer count and the explanatory note whenever fewer than
3 peers qualify, and returns a valid comparison carrying ratios, the peer
names and an interpretation whenever at least 3 qualify; it never scores
with fewer than `min_peers` peers (the embedding is total, so no exception
is ever raised). -/
theorem C4_peer_validity_gate :
    ∀ (pl : PeerLens) (district : String) (target : PeerRow),
      pl.min_peers = 3 →
      pl.df ≠ [] →
      pl.df.find? (fun r => decide (r.district = pyLowerStrip district)) =
        some target →
      ((select_peers pl target).length < 3 →
        analyze_district pl district =
          .invalid district (select_peers pl target).length
            (fewPeersNote (select_peers pl target).length)) ∧
      (3 ≤ (select_peers pl target).length →
        ∃ pr gr rr itp,
          analyze_district pl district =
            .valid district (select_peers pl target).length pr gr rr
              ((select_peers pl target).map fun r => strTitle r.district)
              itp) := by
  intro pl district target hmin hdf hfind
  simp only [analyze_district, if_neg hdf, hfind, hmin]
  constructor
  · intro hlt
    rw [if_pos hlt]
  · intro hge
    rw [if_neg (by omega)]
    exact ⟨_, _, _, _, rfl⟩

/-- Witness for C4: with the demo frame holding exactly 2 qualifying peers
the result is invalid with peer count 2; with exactly 3 it is valid. -/
theorem C4_witness :
    analyze_district ⟨[demoTarget, demoPeer1, demoPeer2], 3/20, 3/20, 3⟩
        "Agra" = .invalid "Agra" 2 (fewPeersNote 2) ∧
    (∃ pr gr rr itp,
      analyze_district
          ⟨[demoTarget, demoPeer1, demoPeer2, demoPeer3], 3/20, 3/20, 3⟩
          "Agra" =
        .valid "Agra" 3 pr gr rr ["Ballia", "Corr", "Deoria"] itp) := by
  have h2 : select_peers ⟨[demoTarget, demoPeer1, demoPeer2], 3/20, 3/20, 3⟩
      demoTarget = [demoPeer1, demoPeer2] := by
    norm_num [select_peers, optCondLe, demoTarget, demoPeer1, demoPeer2]
    decide
  have h3 : select_peers
      ⟨[demoTarget, demoPeer1, demoPeer2, demoPeer3], 3/20, 3/20, 3⟩
      demoTarget = [demoPeer1, demoPeer2, demoPeer3] := by
    norm_num [select_peers, optCondLe, demoTarget, demoPeer1, demoPeer2,
      demoPeer3]
    decide
  constructor
  · have key := (C4_peer_validity_gate
      ⟨[demoTarget, demoPeer1, demoPeer2], 3/20, 3/20, 3⟩ "Agra" demoTarget
      rfl (by simp) (by rfl)).1
    rw [h2] at key
    exact key (by norm_num)
  · have key := (C4_peer_validity_gate
      ⟨[demoTarget, demoPeer1, demoPeer2, demoPeer3], 3/20, 3/20, 3⟩ "Agra"
      demoTarget rfl (by simp) (by rfl)).2
    rw [h3] at key
    obtain ⟨pr, gr, rr, itp, hv⟩ := key (by norm_num)
    have hmap : [demoPeer1, demoPeer2, demoPeer3].map
        (fun r => strTitle r.district) = ["Ballia", "Corr", "Deoria"] := by
      decide
    rw [hmap] at hv
    exact ⟨pr, gr, rr, itp, hv⟩

/-- **C5.** For every valid comparison, `prgi_relative` is the target PRGI
divided by the peer-median PRGI, and is undefined (`none`, not 0 or ∞)
when the peer median is missing or not positive; the interpretation applies
the direction convention — for a lower-is-better ratio, below 0.90 is
"Better than peers" and above 1.10 is "Worse than peers", inverted for the
higher-is-better resolution metric, in-between is "Comparable to peers",
and an undefined ratio is "Insufficient data".  A target PRGI of 0.40
against a peer median of 0.20 yields ratio 2.0, "Worse than peers". -/
theorem C5_peer_ratio_sign_convention :
    (∀ (pl : PeerLens) (district : String) (target : PeerRow)
        (d : String) (c : ℕ) (pr gr rr : Option ℚ)
        (pds : List String) (itp : Interpretation),
      pl.df ≠ [] →
      pl.df.find? (fun r => decide (r.district = pyLowerStrip district)) =
        some target →
      analyze_district pl district = .valid d c pr gr rr pds itp →
      pr = (match median ((select_peers pl target).filterMap (·.prgi)) with
            | some m => if m > 0 then target.prgi.map (· / m) else none
            | none => none) ∧
      itp = interpret pr gr rr) ∧
    (∀ v : ℚ,
      (v < 9/10 → classify (some v) true = "Better than peers") ∧
      (v > 11/10 → classify (some v) true = "Worse than peers") ∧
      (9/10 ≤ v → v ≤ 11/10 → classify (some v) true = "Comparable to peers") ∧
      (v > 11/10 → classify (some v) false = "Better than peers") ∧
      (v < 9/10 → classify (some v) false = "Worse than peers") ∧
      (9/10 ≤ v → v ≤ 11/10 → classify (some v) false = "Comparable to peers")) ∧
    (∀ b, classify none b = "Insufficient data") ∧
    (∃ gr rr pds,
      analyze_district
          ⟨[demoTarget, demoPeer1, demoPeer2, demoPeer3], 3/20, 3/20, 3⟩
          "Agra" =
        .valid "Agra" 3 (some 2) gr rr pds
          ⟨"Worse than peers", "Insufficient data",
            "Comparable to peers"⟩) := by
  refine ⟨?_, ?_, ?_, ?_⟩
  · intro pl district target d c pr gr rr pds itp hdf hfind hval
    simp only [analyze_district, if_neg hdf, hfind] at hval
    split at hval
    · exact absurd hval (by simp)
    · rw [AnalyzeResult.valid.injEq] at hval
      obtain ⟨-, -, h1, h2, h3, -, h4⟩ := hval
      subst h1 h2 h3
      exact ⟨rfl, h4.symm⟩
  · intro v
    refine ⟨fun h => ?_, fun h => ?_, fun h1 h2 => ?_,
      fun h => ?_, fun h => ?_, fun h1 h2 => ?_⟩ <;>
      simp only [classify, GOOD_THRESHOLD, BAD_THRESHOLD, if_true,
        Bool.false_eq_true, if_false]
    · rw [if_pos h]
    · rw [if_neg (by linarith), if_pos h]
    · rw [if_neg (by linarith), if_neg (by linarith)]
    · rw [if_pos h]
    · rw [if_neg (by linarith), if_pos h]
    · rw [if_neg (by linarith), if_neg (by linarith)]
  · intro b; rfl
  · refine ⟨none, some 1, ["Ballia", "Corr", "Deoria"], ?_⟩
    have h3 : select_peers
        ⟨[demoTarget, demoPeer1, demoPeer2, demoPeer3], 3/20, 3/20, 3⟩
        demoTarget = [demoPeer1, demoPeer2, demoPeer3] := by
      norm_num [select_peers, optCondLe, demoTarget, demoPeer1, demoPeer2,
        demoPeer3]
      decide
    simp only [analyze_district]
    rw [if_neg (by simp)]
    have hfind : ([demoTarget, demoPeer1, demoPeer2, demoPeer3].find?
        (fun r => decide (r.district = pyLowerStrip "Agra"))) =
        some demoTarget := by rfl
    simp only [hfind, h3]
    norm_num [median, List.insertionSort, List.orderedInsert, demoTarget,
      demoPeer1, demoPeer2, demoPeer3, interpret, classify, GOOD_THRESHOLD,
      BAD_THRESHOLD]
    decide

/-- Witness for C5: the ratio formula and interpretation conjunct applied
to the demo frame, and the classification bounds at ratio 2. -/
theorem C5_witness :
    (some (2 : ℚ) =
      (match median ((select_peers
          ⟨[demoTarget, demoPeer1, demoPeer2, demoPeer3], 3/20, 3/20, 3⟩
          demoTarget).filterMap (·.prgi)) with
        | some m => if m > 0 then demoTarget.prgi.map (· / m) else none
        | none => none)) ∧
    classify (some 2) true = "Worse than peers" := by
  constructor
  · obtain ⟨gr, rr, pds, hv⟩ := C5_peer_ratio_sign_convention.2.2.2
    exact (C5_peer_ratio_sign_convention.1
      ⟨[demoTarget, demoPeer1, demoPeer2, demoPeer3], 3/20, 3/20, 3⟩ "Agra"
      demoTarget "Agra" 3 (some 2) gr rr pds
      ⟨"Worse than peers", "Insufficient data", "Comparable to peers"⟩
      (by simp) (by rfl) hv).1
  · exact (C5_peer_ratio_sign_convention.2.1 2).2.1 (by norm_num)

/-! ## Grievance signal loader (`src/pgsm.py`) -/

/-- `df.columns = [c.lower().strip() for c in df.columns]` — the in-place
column rename both loaders perform first (the rows see the renamed keys). -/
def normalizeColumns (df : DataFrame) : DataFrame :=
  ⟨df.cols.map normName, df.rows.map fun r => r.map fun p => (normName p.1, p.2)⟩

/-- One output row of `load_grievance_signals`. -/
structure GrievRow where
  month : ℕ
  grievance_signals : ℚ
deriving DecidableEq, Repr

/-- Try to read the regex `(\d\d-\d\d-\d\d\d\d)` at the head of the list. -/
def extractDateAt (l : List Char) : Option String :=
  match l with
  | d1 :: d2 :: h1 :: m1 :: m2 :: h2 :: y1 :: y2 :: y3 :: y4 :: _ =>
    if d1.isDigit && d2.isDigit && (h1 == '-') && m1.isDigit && m2.isDigit &&
       (h2 == '-') && y1.isDigit && y2.isDigit && y3.isDigit && y4.isDigit then
      some (String.mk [d1, d2, h1, m1, m2, h2, y1, y2, y3, y4])
    else none
  | _ => none

/-- First match of the date pattern anywhere in the string
(`Series.str.extract` with the pattern of `pgsm.py` line 28). -/
def findFirstDate : List Char → Option String
  | [] => none
  | c :: cs =>
    match extractDateAt (c :: cs) with
    | some s => some s
    | none => findFirstDate cs

/-- `pd.to_datetime(_, format="%d-%m-%Y", errors="coerce")`: day-month-year
with out-of-range fields coercing to NaT. -/
def parseDMY (s : String) : Option ℕ :=
  match splitOnChar '-' s.toList with
  | [d, m, y] =>
    if isDigitsL d && isDigitsL m && isDigitsL y &&
       decide (1 ≤ digitsValL d) && decide (digitsValL d ≤ 31) &&
       decide (1 ≤ digitsValL m) && decide (digitsValL m ≤ 12) then
      some (encodeDate (digitsValL y) (digitsValL m) (digitsValL d))
    else none
  | _ => none

/-- `load_grievance_signals` (`pgsm.py` lines 4–39): after the in-place
column rename, the new schema (month + grievance_signals) is tried first:
parse the month as a date, coerce the count to numeric, drop rows where
either is NaN, sort by month.  Only otherwise, a `source_file` column is
mined for embedded `DD-MM-YYYY` dates and the row count per extracted date
is the signal volume (pandas `groupby` drops NaT keys and sorts its keys).
Neither schema present (or empty input) gives an empty result.  No
statement inside the `try` of the source can raise, so the embedding is a
total function. -/
def load_grievance_signals (df : DataFrame) : List GrievRow :=
  if df.rows = [] then []
  else
    let n := normalizeColumns df
    if n.cols.contains "month" && n.cols.contains "grievance_signals" then
      List.insertionSort (fun a b : GrievRow => a.month ≤ b.month)
        (n.rows.filterMap fun r =>
          match parseDate (cellAt r "month"),
                parseNum (cellAt r "grievance_signals") with
          | some m, some g => some (⟨m, g⟩ : GrievRow)
          | _, _ => none)
    else if n.cols.contains "source_file" then
      let months := n.rows.filterMap fun r =>
        match cellAt r "source_file" with
        | Cell.str s => (findFirstDate s.toList).bind parseDMY
        | _ => none
      (List.insertionSort (fun a b : ℕ => a ≤ b) months.dedup).map fun m =>
        (⟨m, (months.countP (fun x => decide (x = m)) : ℚ)⟩ : GrievRow)
    else []

/-- The schema-A contract transcribed from the spec, as a definition of its
own: parse month as a date, coerce the signal count to numeric, drop rows
where either fails to parse, return the series sorted by month ascending. -/
def schemaA_spec (df : DataFrame) : List GrievRow :=
  List.insertionSort (fun a b : GrievRow => a.month ≤ b.month)
    ((normalizeColumns df).rows.filterMap fun r =>
      match parseDate (cellAt r "month"),
            parseNum (cellAt r "grievance_signals") with
      | some m, some g => some (⟨m, g⟩ : GrievRow)
      | _, _ => none)

/-- The legacy row-count-per-extracted-date logic, as a definition of its
own (`pgsm.py` lines 25–33). -/
def legacySourceCounts (df : DataFrame) : List GrievRow :=
  let months := (normalizeColumns df).rows.filterMap fun r =>
    match cellAt r "source_file" with
    | Cell.str s => (findFirstDate s.toList).bind parseDMY
    | _ => none
  (List.insertionSort (fun a b : ℕ => a ≤ b) months.dedup).map fun m =>
    (⟨m, (months.countP (fun x => decide (x = m)) : ℚ)⟩ : GrievRow)

/-! ### Claim C7 -/

/-- A table carrying both new-schema columns AND a legacy `source_file`
column; the two schemas would give different answers on it. -/
def bothSchemasDF : DataFrame :=
  ⟨["month", "grievance_signals", "source_file"],
   [[("month", Cell.str "2024-01-01"), ("grievance_signals", Cell.num 5),
     ("source_file", Cell.str "01-12-2025.pdf")],
    [("month", Cell.str "2024-02-01"), ("grievance_signals", Cell.num 7),
     ("source_file", Cell.str "01-12-2025.pdf")]]⟩

/-- **C7.** Whenever the (normalized) columns contain both `month` and
`grievance_signals`, `load_grievance_signals` returns exactly the
schema-A result — even when a `source_file` column is also present — and
the legacy row-count logic runs only when the new-schema columns are not
both present.  On a table with all three columns the output is the
schema-A series, not the legacy date counts. -/
theorem C7_grievance_schema_priority :
    (∀ df : DataFrame,
      (df.cols.map normName).contains "month" = true →
      (df.cols.map normName).contains "grievance_signals" = true →
      load_grievance_signals df = schemaA_spec df) ∧
    (∀ df : DataFrame, df.rows ≠ [] →
      ((df.cols.map normName).contains "month" = false ∨
       (df.cols.map normName).contains "grievance_signals" = false) →
      (df.cols.map normName).contains "source_file" = true →
      load_grievance_signals df = legacySourceCounts df) ∧
    (load_grievance_signals bothSchemasDF =
      [⟨encodeDate 2024 1 1, 5⟩, ⟨encodeDate 2024 2 1, 7⟩] ∧
     legacySourceCounts bothSchemasDF = [⟨encodeDate 2025 12 1, 2⟩]) := by
  refine ⟨?_, ?_, ?_, ?_⟩
  · intro df h1 h2
    by_cases hr : df.rows = []
    · have hempty : schemaA_spec df = [] := by
        simp only [schemaA_spec, normalizeColumns, hr]
        rfl
      simp only [load_grievance_signals, if_pos hr, hempty]
    · have hc : ((normalizeColumns df).cols.contains "month" &&
          (normalizeColumns df).cols.contains "grievance_signals") = true := by
        show ((df.cols.map normName).contains "month" &&
          (df.cols.map normName).contains "grievance_signals") = true
        rw [h1, h2]
        rfl
      simp only [load_grievance_signals]
      rw [if_neg hr, if_pos hc]
      rfl
  · intro df hr hor h3
    have hc : ¬ (((normalizeColumns df).cols.contains "month" &&
        (normalizeColumns df).cols.contains "grievance_signals") = true) := by
      show ¬ (((df.cols.map normName).contains "month" &&
        (df.cols.map normName).contains "grievance_signals") = true)
      rcases hor with h | h <;> rw [h] <;> simp
    have hs : ((normalizeColumns df).cols.contains "source_file") = true := h3
    simp only [load_grievance_signals]
    rw [if_neg hr, if_neg hc, if_pos hs]
    rfl
  · norm_num [load_grievance_signals, bothSchemasDF, normalizeColumns,
      normName, pyLowerStrip, stripChars, cellAt, parseDate, parseNum,
      splitOnChar, isDigitsL, digitsValL, encodeDate, List.insertionSort,
      List.orderedInsert]
    decide
  · norm_num [legacySourceCounts, bothSchemasDF, normalizeColumns, normName,
      pyLowerStrip, stripChars, cellAt, findFirstDate, extractDateAt,
      parseDMY, splitOnChar, isDigitsL, digitsValL, encodeDate,
      List.insertionSort, List.orderedInsert]
    decide

/-- Witness for C7: the priority conjunct applied to the table carrying
all three columns. -/
theorem C7_witness :
    load_grievance_signals bothSchemasDF = schemaA_spec bothSchemasDF := by
  exact C7_grievance_schema_priority.1 bothSchemasDF (by decide) (by decide)

/-! ## PRGI engine (`src/prgi.py`) -/

/-- `TARGET_STATE` from `src/config.py`. -/
def TARGET_STATE : String := "Uttar Pradesh"

/-- `next((c for c in cols if a in c and b in c), next((c for c in cols if
a in c), None))`: first column containing both substrings, else first
containing the first substring. -/
def findCol2 (cols : List String) (a b : String) : Option String :=
  match cols.find? (fun c => containsSub c a && containsSub c b) with
  | some c => some c
  | none => cols.find? (fun c => containsSub c a)

/-- The state-column heuristic of `prgi.py` lines 24–25. -/
def stateCol (cols : List String) : Option String := findCol2 cols "state" "name"

/-- The district-column heuristic of `prgi.py` lines 71–72: the two fuzzy
searches, then the literal default `district_name` — which raises KeyError
at the groupby when absent, hence `none` here. -/
def distNameCol (cols : List String) : Option String :=
  match findCol2 cols "district" "name" with
  | some c => some c
  | none => if cols.contains "district_name" then some "district_name" else none

/-- The state filter of `prgi.py` lines 27–29: rows whose stripped,
lower-cased state cell equals the lower-cased target state; when no state
column exists, the frame passes through unfiltered. -/
def stateFilter (cols : List String) (rows : List Row) : List Row :=
  match stateCol cols with
  | some c => rows.filter fun r =>
      decide (pyLowerStrip (pyStr (cellAt r c)) = pyLowerStrip TARGET_STATE)
  | none => rows

/-- Allocation and distribution column selection (`prgi.py` lines 53–59):
prefer columns containing both the quantity tag and `total`; if either
preferred list is empty, both fall back to the loose single-tag match. -/
def quantCols (cols : List String) : List String × List String :=
  let ac := cols.filter fun c => containsSub c "alloc" && containsSub c "total"
  let dc := cols.filter fun c => containsSub c "distrib" && containsSub c "total"
  if ac.isEmpty || dc.isEmpty then
    (cols.filter fun c => containsSub c "alloc",
     cols.filter fun c => containsSub c "distrib")
  else (ac, dc)

/-- Row total over the selected quantity columns: each cell coerced to
numeric with NaN→0, summed (`prgi.py` lines 62–68). -/
def totalOf (colsSel : List String) (r : Row) : ℚ :=
  (colsSel.map fun c => (parseNum (cellAt r c)).getD 0).sum

/-- One (month, district) aggregation group. -/
structure PrgiGroup where
  month : ℕ
  district : String
  total_allocation : ℚ
  total_distribution : ℚ
deriving DecidableEq, Repr

/-- One output row of `compute_prgi`. -/
structure PrgiRow where
  month : ℕ
  district : String
  allocation : ℚ
  distribution : ℚ
  prgi : ℚ
deriving DecidableEq, Repr

/-- The keyed per-input-row data fed to the groupby:
(month, district, total_allocation, total_distribution). -/
abbrev KeyedRow := ℕ × String × ℚ × ℚ

/-- The distinct (month, district) group keys in the ascending order pandas
`groupby` produces. -/
def groupKeys (keyed : List KeyedRow) : List (ℕ × String) :=
  List.insertionSort
    (fun a b : ℕ × String =>
      a.1 < b.1 ∨ (a.1 = b.1 ∧ (strLt a.2 b.2 = true ∨ a.2 = b.2)))
    ((keyed.map fun k => (k.1, k.2.1)).dedup)

/-- `groupby(["month_idx", dist_col]).sum()` over the two totals. -/
def groupsOf (keyed : List KeyedRow) : List PrgiGroup :=
  (groupKeys keyed).map fun k =>
    let matching := keyed.filter fun x => decide (x.1 = k.1 ∧ x.2.1 = k.2)
    { month := k.1, district := k.2
      total_allocation := (matching.map fun x => x.2.2.1).sum
      total_distribution := (matching.map fun x => x.2.2.2).sum }

/-- `Series.clip(0, 1)`. -/
def clip01 (x : ℚ) : ℚ := min 1 (max 0 x)

/-- `prgi.py` lines 77–79: drop groups with nonpositive total allocation,
then `prgi = clip(1 - distribution/allocation, 0, 1)`. -/
def prgiOfGroups (groups : List PrgiGroup) : List PrgiRow :=
  (groups.filter fun g => decide (0 < g.total_allocation)).map fun g =>
    { month := g.month, district := g.district
      allocation := g.total_allocation
      distribution := g.total_distribution
      prgi := clip01 (1 - g.total_distribution / g.total_allocation) }

/-- The body of the `try` block of `compute_prgi` (`prgi.py` lines 19–89).
The only statement that can raise on our cell model is the groupby on a
missing district column (KeyError), hence the `Except`.  Note the
year+month combination branch of line 38: its guard also demands a `month`
column, which the branch above it already captured, so it is unreachable —
it is transcribed verbatim regardless. -/
def computePrgiCore (df : DataFrame) : Except String (List PrgiRow) :=
  let n := normalizeColumns df
  let rows1 := stateFilter n.cols n.rows
  if rows1 = [] then .ok []
  else if n.cols.contains "month" then
    let parsed := rows1.filterMap fun r =>
      (parseDate (cellAt r "month")).map fun d => (r, d)
    match distNameCol n.cols with
    | none => .error "KeyError: district column"
    | some dc =>
      let keyed : List KeyedRow := parsed.map fun p =>
        (p.2, pyStr (cellAt p.1 dc),
         totalOf (quantCols n.cols).1 p.1, totalOf (quantCols n.cols).2 p.1)
      .ok (prgiOfGroups (groupsOf keyed))
  else if n.cols.contains "year" && n.cols.contains "month" then
    let parsed := rows1.filterMap fun r =>
      (parseDate (Cell.str (pyStr (cellAt r "year") ++ "-" ++
        pyStr (cellAt r "month") ++ "-01"))).map fun d => (r, d)
    match distNameCol n.cols with
    | none => .error "KeyError: district column"
    | some dc =>
      let keyed : List KeyedRow := parsed.map fun p =>
        (p.2, pyStr (cellAt p.1 dc),
         totalOf (quantCols n.cols).1 p.1, totalOf (quantCols n.cols).2 p.1)
      .ok (prgiOfGroups (groupsOf keyed))
  else .ok []

/-- `compute_prgi`: empty input short-circuits; any exception from the body
is caught and converted to an empty result (`prgi.py` lines 16–17 and
91–93). -/
def compute_prgi (df : DataFrame) : List PrgiRow :=
  if df.rows = [] then []
  else
    match computePrgiCore df with
    | .ok res => res
    | .error _ => []

/-! ### Claim C1 -/

lemma clip01_nonneg (x : ℚ) : 0 ≤ clip01 x :=
  le_min zero_le_one (le_max_left 0 x)

lemma clip01_le_one (x : ℚ) : clip01 x ≤ 1 := min_le_left _ _

lemma clip01_eq_zero_iff (x : ℚ) : clip01 x = 0 ↔ x ≤ 0 := by
  unfold clip01
  rcases le_or_lt x 0 with h | h
  · rw [max_eq_left h, min_eq_right zero_le_one]
    simp [h]
  · rw [max_eq_right h.le]
    have hpos : 0 < min 1 x := lt_min one_pos h
    constructor
    · intro h0; rw [h0] at hpos; exact absurd hpos (lt_irrefl 0)
    · intro hle; exact absurd (hle.trans_lt h) (lt_irrefl x)

lemma mem_prgiOfGroups {gs : List PrgiGroup} {r : PrgiRow}
    (hr : r ∈ prgiOfGroups gs) :
    ∃ g ∈ gs, 0 < g.total_allocation ∧
      r = ⟨g.month, g.district, g.total_allocation, g.total_distribution,
           clip01 (1 - g.total_distribution / g.total_allocation)⟩ := by
  simp only [prgiOfGroups, List.mem_map, List.mem_filter,
    decide_eq_true_eq] at hr
  obtain ⟨g, ⟨hg, hpos⟩, rfl⟩ := hr
  exact ⟨g, hg, hpos, rfl⟩

lemma computePrgiCore_ok_shape (df : DataFrame) (res : List PrgiRow)
    (h : computePrgiCore df = .ok res) :
    res = [] ∨ ∃ keyed, res = prgiOfGroups (groupsOf keyed) := by
  simp only [computePrgiCore] at h
  split at h
  · left; cases h; rfl
  · split at h
    · split at h
      · exact absurd h (by simp)
      · right; cases h; exact ⟨_, rfl⟩
    · split at h
      · split at h
        · exact absurd h (by simp)
        · right; cases h; exact ⟨_, rfl⟩
      · left; cases h; rfl

/-- Invariants of a row coming out of `prgiOfGroups`. -/
lemma prgiOfGroups_row_invariants {gs : List PrgiGroup} {r : PrgiRow}
    (hr : r ∈ prgiOfGroups gs) :
    0 < r.allocation ∧
    r.prgi = clip01 (1 - r.distribution / r.allocation) ∧
    0 ≤ r.prgi ∧ r.prgi ≤ 1 ∧
    (r.prgi = 0 ↔ r.allocation ≤ r.distribution) := by
  obtain ⟨g, -, hpos, rfl⟩ := mem_prgiOfGroups hr
  refine ⟨hpos, rfl, clip01_nonneg _, clip01_le_one _, ?_⟩
  rw [clip01_eq_zero_iff, sub_nonpos, one_le_div hpos]

/-- **C1.** Every output row of `compute_prgi` has strictly positive total
allocation and `prgi = clip(1 - distribution/allocation, 0, 1)`; hence
`0 ≤ prgi ≤ 1`, and `prgi = 0` exactly when distribution ≥ allocation.
Moreover every output row descends from an aggregation group with strictly
positive summed allocation, so no (district, month) group with summed
allocation ≤ 0 ever appears. -/
theorem C1_prgi_bounds :
    (∀ (df : DataFrame) (r : PrgiRow), r ∈ compute_prgi df →
      0 < r.allocation ∧
      r.prgi = clip01 (1 - r.distribution / r.allocation) ∧
      0 ≤ r.prgi ∧ r.prgi ≤ 1 ∧
      (r.prgi = 0 ↔ r.allocation ≤ r.distribution)) ∧
    (∀ (gs : List PrgiGroup) (r : PrgiRow), r ∈ prgiOfGroups gs →
      ∃ g ∈ gs, 0 < g.total_allocation ∧ r.month = g.month ∧
        r.district = g.district ∧ r.allocation = g.total_allocation) := by
  constructor
  · intro df r hr
    unfold compute_prgi at hr
    split at hr
    · exact absurd hr (List.not_mem_nil r)
    · split at hr
      · rename_i res heq
        obtain hnil | ⟨keyed, hres⟩ := computePrgiCore_ok_shape df res heq
        · rw [hnil] at hr; exact absurd hr (List.not_mem_nil r)
        · rw [hres] at hr; exact prgiOfGroups_row_invariants hr
      · exact absurd hr (List.not_mem_nil r)
  · intro gs r hr
    obtain ⟨g, hg, hpos, rfl⟩ := mem_prgiOfGroups hr
    exact ⟨g, hg, hpos, rfl, rfl, rfl⟩

/-- The end-to-end scenario frame of the spec: one Agra row for
January 2024 with 1000 quintals allocated and 700 distributed. -/
def endToEndDF : DataFrame :=
  ⟨["State_Name", "District_Name", "Month", "total_wheat_allocated",
    "total_rice_allocated", "total_wheat_distributed",
    "total_rice_distributed"],
   [[("State_Name", Cell.str "Uttar Pradesh"),
     ("District_Name", Cell.str "Agra"),
     ("Month", Cell.str "2024-01-01"),
     ("total_wheat_allocated", Cell.num 1000),
     ("total_rice_allocated", Cell.num 0),
     ("total_wheat_distributed", Cell.num 700),
     ("total_rice_distributed", Cell.num 0)]]⟩

/-- A one-row keyed list aggregates to the single group holding exactly
its totals. -/
lemma groupsOf_singleton (k : KeyedRow) :
    groupsOf [k] = [⟨k.1, k.2.1, k.2.2.1, k.2.2.2⟩] := by
  simp [groupsOf, groupKeys, List.insertionSort, List.orderedInsert,
    List.dedup]

/-- A single group with positive allocation yields its PRGI row. -/
lemma prgiOfGroups_singleton_pos (g : PrgiGroup)
    (h : 0 < g.total_allocation) :
    prgiOfGroups [g] =
      [⟨g.month, g.district, g.total_allocation, g.total_distribution,
        clip01 (1 - g.total_distribution / g.total_allocation)⟩] := by
  simp [prgiOfGroups, h]

/-- The end-to-end row after the column rename. -/
def e2eRow : Row :=
  [("state_name", Cell.str "Uttar Pradesh"),
   ("district_name", Cell.str "Agra"),
   ("month", Cell.str "2024-01-01"),
   ("total_wheat_allocated", Cell.num 1000),
   ("total_rice_allocated", Cell.num 0),
   ("total_wheat_distributed", Cell.num 700),
   ("total_rice_distributed", Cell.num 0)]

/-- Evaluation of `compute_prgi` on the end-to-end frame. -/
theorem compute_prgi_endToEnd :
    compute_prgi endToEndDF =
      [⟨encodeDate 2024 1 1, "Agra", 1000, 700, 3/10⟩] := by
  have hcore : computePrgiCore endToEndDF =
      .ok (prgiOfGroups (groupsOf
        [(encodeDate 2024 1 1, "Agra",
          totalOf ["total_wheat_allocated", "total_rice_allocated"] e2eRow,
          totalOf ["total_wheat_distributed", "total_rice_distributed"]
            e2eRow)])) := by
    rfl
  have c1 : cellAt e2eRow "total_wheat_allocated" = Cell.num 1000 := by rfl
  have c2 : cellAt e2eRow "total_rice_allocated" = Cell.num 0 := by rfl
  have c3 : cellAt e2eRow "total_wheat_distributed" = Cell.num 700 := by rfl
  have c4 : cellAt e2eRow "total_rice_distributed" = Cell.num 0 := by rfl
  have hA : totalOf ["total_wheat_allocated", "total_rice_allocated"]
      e2eRow = 1000 := by
    simp [totalOf, c1, c2, parseNum]
  have hD : totalOf ["total_wheat_distributed", "total_rice_distributed"]
      e2eRow = 700 := by
    simp [totalOf, c3, c4, parseNum]
  have hclip : clip01 ((3 : ℚ)/10) = 3/10 := by
    unfold clip01
    rw [max_eq_right (by norm_num), min_eq_right (by norm_num)]
  simp only [compute_prgi, hcore, hA, hD, groupsOf_singleton]
  rw [if_neg (by decide)]
  rw [prgiOfGroups_singleton_pos _ (by norm_num)]
  norm_num [hclip]

/-- Witness for C1: the row invariants applied to the end-to-end frame. -/
theorem C1_witness :
    ∃ r ∈ compute_prgi endToEndDF,
      0 < r.allocation ∧
      r.prgi = clip01 (1 - r.distribution / r.allocation) ∧
      0 ≤ r.prgi ∧ r.prgi ≤ 1 ∧
      (r.prgi = 0 ↔ r.allocation ≤ r.distribution) := by
  have hm : (⟨encodeDate 2024 1 1, "Agra", 1000, 700, 3/10⟩ : PrgiRow) ∈
      compute_prgi endToEndDF := by
    rw [compute_prgi_endToEnd]; simp
  exact ⟨_, hm, C1_prgi_bounds.1 endToEndDF _ hm⟩

/-! ### Claim C6 -/

/-- If every keyed row carries a zero allocation total, aggregation
produces no PRGI rows (all groups are dropped by the positivity filter). -/
lemma prgiOfGroups_groupsOf_zero_alloc (keyed : List KeyedRow)
    (h : ∀ x ∈ keyed, x.2.2.1 = 0) :
    prgiOfGroups (groupsOf keyed) = [] := by
  have hz : ∀ g ∈ groupsOf keyed, g.total_allocation = 0 := by
    intro g hg
    simp only [groupsOf, List.mem_map] at hg
    obtain ⟨k, -, rfl⟩ := hg
    refine List.sum_eq_zero ?_
    intro x hx
    simp only [List.mem_map] at hx
    obtain ⟨y, hy, rfl⟩ := hx
    exact h y (List.mem_of_mem_filter hy)
  unfold prgiOfGroups
  rw [List.filter_eq_nil_iff.mpr ?_, List.map_nil]
  intro g hg
  simp [hz g hg]

/-- **C6 (amended).** `compute_prgi` is a total function that degrades to
an empty result on: empty input, an empty state-filter result (no rows
matching the target state), a missing month column, no parseable dates, a
missing district column, missing allocation columns, and any exception
raised by the body (modelled by the `Except.error` case).  The original
claim also listed a missing state column; that case is refuted by
`C6_counterexample` — the state filter is skipped and the computation
proceeds. -/
theorem C6_empty_degradation :
    (∀ df : DataFrame, df.rows = [] → compute_prgi df = []) ∧
    (∀ (df : DataFrame) (e : String), computePrgiCore df = .error e →
      compute_prgi df = []) ∧
    (∀ df : DataFrame,
      stateFilter (normalizeColumns df).cols (normalizeColumns df).rows =
        [] → compute_prgi df = []) ∧
    (∀ df : DataFrame, (normalizeColumns df).cols.contains "month" = false →
      compute_prgi df = []) ∧
    (∀ df : DataFrame,
      (∀ r ∈ stateFilter (normalizeColumns df).cols
          (normalizeColumns df).rows,
        parseDate (cellAt r "month") = none) →
      compute_prgi df = []) ∧
    (∀ df : DataFrame, distNameCol (normalizeColumns df).cols = none →
      compute_prgi df = []) ∧
    (∀ df : DataFrame,
      ((normalizeColumns df).cols.filter fun c => containsSub c "alloc") =
        [] → compute_prgi df = []) := by
  have L1 : ∀ df : DataFrame, df.rows = [] → compute_prgi df = [] := by
    intro df h
    unfold compute_prgi
    rw [if_pos h]
  have L2 : ∀ df : DataFrame, computePrgiCore df = .ok [] →
      compute_prgi df = [] := by
    intro df h
    unfold compute_prgi
    split
    · rfl
    · rw [h]
  have L3 : ∀ (df : DataFrame) (e : String),
      computePrgiCore df = .error e → compute_prgi df = [] := by
    intro df e h
    unfold compute_prgi
    split
    · rfl
    · rw [h]
  have hq : ∀ cols : List String,
      (cols.filter fun c => containsSub c "alloc") = [] →
      (quantCols cols).1 = [] := by
    intro cols h
    have hno : ∀ c ∈ cols, ¬ containsSub c "alloc" = true :=
      List.filter_eq_nil_iff.mp h
    have htight : (cols.filter fun c =>
        containsSub c "alloc" && containsSub c "total") = [] := by
      refine List.filter_eq_nil_iff.mpr fun c hc => ?_
      simp [hno c hc]
    unfold quantCols
    rw [htight]
    simp [h]
  refine ⟨L1, fun df e h => L3 df e h, ?_, ?_, ?_, ?_, ?_⟩
  · -- empty state-filter result
    intro df hfilter
    by_cases hr : df.rows = []
    · exact L1 df hr
    · refine L2 df ?_
      simp only [computePrgiCore]
      rw [if_pos hfilter]
  · -- no month column
    intro df hmonth
    by_cases hr : df.rows = []
    · exact L1 df hr
    · by_cases hf : stateFilter (normalizeColumns df).cols
          (normalizeColumns df).rows = []
      · refine L2 df ?_
        simp only [computePrgiCore]
        rw [if_pos hf]
      · refine L2 df ?_
        simp only [computePrgiCore]
        rw [if_neg hf, if_neg (by rw [hmonth]; simp),
          if_neg (by rw [hmonth, Bool.and_false]; simp)]
  · -- no parseable dates
    intro df hdates
    by_cases hr : df.rows = []
    · exact L1 df hr
    · by_cases hf : stateFilter (normalizeColumns df).cols
          (normalizeColumns df).rows = []
      · refine L2 df ?_
        simp only [computePrgiCore]
        rw [if_pos hf]
      · by_cases hm : (normalizeColumns df).cols.contains "month" = true
        · have hnil : (stateFilter (normalizeColumns df).cols
              (normalizeColumns df).rows).filterMap
              (fun r => (parseDate (cellAt r "month")).map fun d => (r, d)) =
              [] := by
            refine List.filterMap_eq_nil_iff.mpr fun r hr2 => ?_
            rw [hdates r hr2]
            rfl
          rcases hdc : distNameCol (normalizeColumns df).cols with - | dc
          · refine L3 df "KeyError: district column" ?_
            simp only [computePrgiCore]
            rw [if_neg hf, if_pos hm, hdc]
          · refine L2 df ?_
            simp only [computePrgiCore]
            rw [if_neg hf, if_pos hm, hdc, hnil]
            rfl
        · have hmf : (normalizeColumns df).cols.contains "month" = false := by
            simpa using hm
          refine L2 df ?_
          simp only [computePrgiCore]
          rw [if_neg hf, if_neg hm,
            if_neg (by rw [hmf, Bool.and_false]; simp)]
  · -- no district column
    intro df hdc
    by_cases hr : df.rows = []
    · exact L1 df hr
    · by_cases hf : stateFilter (normalizeColumns df).cols
          (normalizeColumns df).rows = []
      · refine L2 df ?_
        simp only [computePrgiCore]
        rw [if_pos hf]
      · by_cases hm : (normalizeColumns df).cols.contains "month" = true
        · refine L3 df "KeyError: district column" ?_
          simp only [computePrgiCore]
          rw [if_neg hf, if_pos hm, hdc]
        · have hmf : (normalizeColumns df).cols.contains "month" = false := by
            simpa using hm
          refine L2 df ?_
          simp only [computePrgiCore]
          rw [if_neg hf, if_neg hm,
            if_neg (by rw [hmf, Bool.and_false]; simp)]
  · -- no allocation columns
    intro df halloc
    by_cases hr : df.rows = []
    · exact L1 df hr
    · by_cases hf : stateFilter (normalizeColumns df).cols
          (normalizeColumns df).rows = []
      · refine L2 df ?_
        simp only [computePrgiCore]
        rw [if_pos hf]
      · by_cases hm : (normalizeColumns df).cols.contains "month" = true
        · rcases hdc : distNameCol (normalizeColumns df).cols with - | dc
          · refine L3 df "KeyError: district column" ?_
            simp only [computePrgiCore]
            rw [if_neg hf, if_pos hm, hdc]
          · refine L2 df ?_
            simp only [computePrgiCore]
            rw [if_neg hf, if_pos hm, hdc]
            exact congrArg Except.ok (prgiOfGroups_groupsOf_zero_alloc _ (by
              intro x hx
              simp only [List.mem_map] at hx
              obtain ⟨p, -, rfl⟩ := hx
              rw [hq _ halloc]
              rfl))
        · have hmf : (normalizeColumns df).cols.contains "month" = false := by
            simpa using hm
          refine L2 df ?_
          simp only [computePrgiCore]
          rw [if_neg hf, if_neg hm,
            if_neg (by rw [hmf, Bool.and_false]; simp)]

/-- A frame with no state column at all: district, month and quantity
columns only. -/
def noStateDF : DataFrame :=
  ⟨["District_Name", "Month", "total_wheat_allocated",
    "total_wheat_distributed"],
   [[("District_Name", Cell.str "Agra"), ("Month", Cell.str "2024-01-01"),
     ("total_wheat_allocated", Cell.num 1000),
     ("total_wheat_distributed", Cell.num 700)]]⟩

/-- The row of `noStateDF` after the column rename. -/
def noStateRow : Row :=
  [("district_name", Cell.str "Agra"), ("month", Cell.str "2024-01-01"),
   ("total_wheat_allocated", Cell.num 1000),
   ("total_wheat_distributed", Cell.num 700)]

/-- Counterexample for C6 as stated: on a frame whose state column is
missing, `compute_prgi` does NOT return an empty result — the state filter
is skipped (lines 27–29 run only when a state column is found) and a
nonempty PRGI table is produced. -/
theorem C6_counterexample :
    stateCol (normalizeColumns noStateDF).cols = none ∧
    compute_prgi noStateDF =
      [⟨encodeDate 2024 1 1, "Agra", 1000, 700, 3/10⟩] := by
  constructor
  · rfl
  · have hcore : computePrgiCore noStateDF =
        .ok (prgiOfGroups (groupsOf
          [(encodeDate 2024 1 1, "Agra",
            totalOf ["total_wheat_allocated"] noStateRow,
            totalOf ["total_wheat_distributed"] noStateRow)])) := by rfl
    have c1 : cellAt noStateRow "total_wheat_allocated" = Cell.num 1000 := by
      rfl
    have c2 : cellAt noStateRow "total_wheat_distributed" = Cell.num 700 := by
      rfl
    have hA : totalOf ["total_wheat_allocated"] noStateRow = 1000 := by
      simp [totalOf, c1, parseNum]
    have hD : totalOf ["total_wheat_distributed"] noStateRow = 700 := by
      simp [totalOf, c2, parseNum]
    have hclip : clip01 ((3 : ℚ)/10) = 3/10 := by
      unfold clip01
      rw [max_eq_right (by norm_num), min_eq_right (by norm_num)]
    simp only [compute_prgi, hcore, hA, hD, groupsOf_singleton]
    rw [if_neg (by decide)]
    rw [prgiOfGroups_singleton_pos _ (by norm_num)]
    norm_num [hclip]

/-- Witness for C6 (amended): the empty-input and missing-month-column
clauses at concrete frames. -/
theorem C6_witness :
    compute_prgi ⟨["month"], []⟩ = [] ∧
    compute_prgi ⟨["colx"], [[("colx", Cell.str "v")]]⟩ = [] := by
  refine ⟨C6_empty_degradation.1 _ rfl, ?_⟩
  exact C6_empty_degradation.2.2.2.1 _ (by decide)

/-! ### Claim C9 -/

/-- A frame with separate year and month columns (month holding a bare
month number, not a date). -/
def yearMonthDF : DataFrame :=
  ⟨["state_name", "district_name", "year", "month",
    "total_wheat_allocated", "total_wheat_distributed"],
   [[("state_name", Cell.str "Uttar Pradesh"),
     ("district_name", Cell.str "Agra"),
     ("year", Cell.str "2024"), ("month", Cell.str "1"),
     ("total_wheat_allocated", Cell.num 1000),
     ("total_wheat_distributed", Cell.num 700)]]⟩

/-- The row of `yearMonthDF` (columns already normalized). -/
def yearMonthRow : Row :=
  [("state_name", Cell.str "Uttar Pradesh"),
   ("district_name", Cell.str "Agra"),
   ("year", Cell.str "2024"), ("month", Cell.str "1"),
   ("total_wheat_allocated", Cell.num 1000),
   ("total_wheat_distributed", Cell.num 700)]

/-- **C9 (code bug).** The year+month combination branch of `compute_prgi`
(line 38) is unreachable: its guard `year in columns and month in columns`
also requires a month column, which the `if month in columns` branch just
above already captured.  On a frame with year and month columns whose
month holds a bare month number, both columns are present, the bare month
does not parse as a date, and the output is empty — whereas the
combination the dead branch (and the spec) intends parses to the
first-of-month date 2024-01-01. -/
theorem C9_year_month_branch_unreachable :
    compute_prgi yearMonthDF = [] ∧
    (normalizeColumns yearMonthDF).cols.contains "year" = true ∧
    (normalizeColumns yearMonthDF).cols.contains "month" = true ∧
    parseDate (cellAt yearMonthRow "month") = none ∧
    parseDate (Cell.str (pyStr (cellAt yearMonthRow "year") ++ "-" ++
      pyStr (cellAt yearMonthRow "month") ++ "-01")) =
      some (encodeDate 2024 1 1) := by
  refine ⟨by rfl, by decide, by decide, by decide, by decide⟩

/-! ## Caller-visible frame effects (`prgi.py` line 21 / `pgsm.py` lines
15, 19–20, 28–29)

Both entry points start by assigning `df.columns` in place, a mutation of
the caller's object; further in-place column writes happen before the code
rebinds `df` to a fresh copy.  The functions below model the caller's
frame as it stands after each call returns. -/

/-- Write one cell into a row: overwrite the binding when the key exists,
append it otherwise. -/
def setCellVal (r : Row) (c : String) (v : Cell) : Row :=
  if (r.map Prod.fst).contains c then
    r.map fun p => if p.1 = c then (c, v) else p
  else r ++ [(c, v)]

/-- Pandas column assignment `df[c] = f(row)`: overwrite an existing
column in place or append a new one; the assigned value is computed from
the row as it stood before the assignment. -/
def assignCol (df : DataFrame) (c : String) (f : Row → Cell) : DataFrame :=
  ⟨if df.cols.contains c then df.cols else df.cols ++ [c],
   df.rows.map fun r => setCellVal r c (f r)⟩

/-- A parsed date as a cell (NaT when parsing failed); dates are encoded
by their `encodeDate` number. -/
def cellOfDate : Option ℕ → Cell
  | some d => Cell.num d
  | none => Cell.null

/-- A coerced numeric value as a cell (NaN when coercion failed). -/
def cellOfNum : Option ℚ → Cell
  | some q => Cell.num q
  | none => Cell.null

/-- The caller's frame after `compute_prgi` returns: empty input is
untouched; otherwise the columns are renamed in place (line 21), and —
only when no state column is found, so that `df` is never rebound to a
copy (line 29) — the `month_idx` column of line 37 is written into the
caller's frame when a month column exists. -/
def computePrgiCallerFrame (df : DataFrame) : DataFrame :=
  if df.rows = [] then df
  else
    let n := normalizeColumns df
    match stateCol n.cols with
    | some _ => n
    | none =>
      if n.cols.contains "month" then
        assignCol n "month_idx" fun r =>
          cellOfDate (parseDate (cellAt r "month"))
      else n

/-- The caller's frame after `load_grievance_signals` returns: empty input
untouched; otherwise columns renamed in place, then under the new schema
the month column is overwritten with parsed dates and the signal count
coerced to numeric (lines 19–20), and under the legacy schema the
`extracted_date` and `month` columns are written (lines 28–29). -/
def loadGrievanceCallerFrame (df : DataFrame) : DataFrame :=
  if df.rows = [] then df
  else
    let n := normalizeColumns df
    if n.cols.contains "month" && n.cols.contains "grievance_signals" then
      assignCol
        (assignCol n "month" fun r => cellOfDate (parseDate (cellAt r "month")))
        "grievance_signals"
        (fun r => cellOfNum (parseNum (cellAt r "grievance_signals")))
    else if n.cols.contains "source_file" then
      let withED := assignCol n "extracted_date" fun r =>
        match cellAt r "source_file" with
        | Cell.str s =>
          (match findFirstDate s.toList with
           | some ds => Cell.str ds
           | none => Cell.null)
        | _ => Cell.null
      assignCol withED "month" fun r =>
        cellOfDate
          (match cellAt r "extracted_date" with
           | Cell.str ds => parseDMY ds
           | _ => none)
    else n

/-! ### Claim C10 -/

/-- Counterexample for C10 as stated: both `compute_prgi` and
`load_grievance_signals` mutate the caller's table.  `compute_prgi`
renames the columns in place and (with no state column present) writes a
`month_idx` column into it; `load_grievance_signals` overwrites the
caller's month and signal-count cells in place. -/
theorem C10_counterexample :
    computePrgiCallerFrame ⟨["Month"], [[("Month", Cell.str "x")]]⟩ ≠
      ⟨["Month"], [[("Month", Cell.str "x")]]⟩ ∧
    loadGrievanceCallerFrame
        ⟨["month", "grievance_signals"],
         [[("month", Cell.str "x"), ("grievance_signals", Cell.str "y")]]⟩ ≠
      ⟨["month", "grievance_signals"],
       [[("month", Cell.str "x"), ("grievance_signals", Cell.str "y")]]⟩ := by
  exact ⟨by decide, by decide⟩

lemma assignCol_spec (df : DataFrame) (c : String) (f : Row → Cell) :
    (assignCol df c f).cols.take df.cols.length = df.cols ∧
    df.cols.length ≤ (assignCol df c f).cols.length ∧
    (assignCol df c f).rows.length = df.rows.length := by
  unfold assignCol
  split
  · exact ⟨List.take_length _, le_refl _, by simp⟩
  · exact ⟨List.take_left .., by simp, by simp⟩

lemma assign2_take (df0 : DataFrame) (c1 c2 : String) (f1 f2 : Row → Cell) :
    (assignCol (assignCol df0 c1 f1) c2 f2).cols.take df0.cols.length =
      df0.cols := by
  have h1 := assignCol_spec df0 c1 f1
  have h2 := assignCol_spec (assignCol df0 c1 f1) c2 f2
  calc (assignCol (assignCol df0 c1 f1) c2 f2).cols.take df0.cols.length
      = ((assignCol (assignCol df0 c1 f1) c2 f2).cols.take
          (assignCol df0 c1 f1).cols.length).take df0.cols.length := by
        rw [List.take_take, min_eq_left h1.2.1]
    _ = (assignCol df0 c1 f1).cols.take df0.cols.length := by rw [h2.1]
    _ = df0.cols := h1.1

/-- **C10 (amended).** The two entry points do mutate the caller's table:
an empty input is returned untouched, but on nonempty input the caller's
column names are normalized in place (with `month_idx`, or
`extracted_date` and `month`, possibly appended after them), while the
caller's row count is always preserved. -/
theorem C10_caller_frame_mutation :
    (∀ df : DataFrame, df.rows = [] →
      computePrgiCallerFrame df = df ∧ loadGrievanceCallerFrame df = df) ∧
    (∀ df : DataFrame, df.rows ≠ [] →
      (computePrgiCallerFrame df).cols.take df.cols.length =
        df.cols.map normName ∧
      (loadGrievanceCallerFrame df).cols.take df.cols.length =
        df.cols.map normName) ∧
    (∀ df : DataFrame,
      (computePrgiCallerFrame df).rows.length = df.rows.length ∧
      (loadGrievanceCallerFrame df).rows.length = df.rows.length) := by
  have hn : ∀ df : DataFrame, (normalizeColumns df).cols.length =
      df.cols.length := by
    intro df; simp [normalizeColumns]
  have hntake : ∀ df : DataFrame,
      (normalizeColumns df).cols.take df.cols.length =
        df.cols.map normName := by
    intro df
    simp only [normalizeColumns]
    rw [← List.length_map df.cols normName]
    exact List.take_length _
  have hnrows : ∀ df : DataFrame, (normalizeColumns df).rows.length =
      df.rows.length := by
    intro df; simp [normalizeColumns]
  refine ⟨?_, ?_, ?_⟩
  · intro df h
    constructor
    · simp only [computePrgiCallerFrame]; rw [if_pos h]
    · simp only [loadGrievanceCallerFrame]; rw [if_pos h]
  · intro df h
    constructor
    · simp only [computePrgiCallerFrame]
      rw [if_neg h]
      split
      · exact hntake df
      · split
        · have hdefeq : (normalizeColumns df).cols = df.cols.map normName :=
            rfl
          rw [← hdefeq, ← hn df]
          exact (assignCol_spec _ _ _).1
        · exact hntake df
    · simp only [loadGrievanceCallerFrame]
      rw [if_neg h]
      split
      · have hdefeq : (normalizeColumns df).cols = df.cols.map normName :=
          rfl
        rw [← hdefeq, ← hn df]
        exact assign2_take _ _ _ _ _
      · split
        · have hdefeq : (normalizeColumns df).cols = df.cols.map normName :=
            rfl
          rw [← hdefeq, ← hn df]
          exact assign2_take _ _ _ _ _
        · exact hntake df
  · intro df
    constructor
    · simp only [computePrgiCallerFrame]
      split
      · rfl
      · split
        · exact hnrows df
        · split
          · rw [(assignCol_spec ..).2.2, hnrows df]
          · exact hnrows df
    · simp only [loadGrievanceCallerFrame]
      split
      · rfl
      · split
        · rw [(assignCol_spec ..).2.2, (assignCol_spec ..).2.2, hnrows df]
        · split
          · rw [(assignCol_spec ..).2.2, (assignCol_spec ..).2.2, hnrows df]
          · exact hnrows df

/-- Witness for C10 (amended): the empty-input, rename and row-count
clauses at concrete frames. -/
theorem C10_witness :
    computePrgiCallerFrame ⟨["A"], []⟩ = ⟨["A"], []⟩ ∧
    (computePrgiCallerFrame
      ⟨["Month"], [[("Month", Cell.str "x")]]⟩).cols.take 1 = ["month"] ∧
    (loadGrievanceCallerFrame
      ⟨["Month"], [[("Month", Cell.str "x")]]⟩).rows.length = 1 := by
  refine ⟨(C10_caller_frame_mutation.1 _ rfl).1, ?_, ?_⟩
  · exact ((C10_caller_frame_mutation.2.1
      ⟨["Month"], [[("Month", Cell.str "x")]]⟩ (by simp)).1).trans (by decide)
  · exact (C10_caller_frame_mutation.2.2
      ⟨["Month"], [[("Month", Cell.str "x")]]⟩).2

/-! ## Risk ranker (`src/prgi.py` lines 95–126) -/

/-- One entry of the risk leaderboard. -/
structure RiskEntry where
  district : String
  avg_prgi : ℚ
  latest_prgi : Option ℚ
deriving DecidableEq, Repr

/-- `available_months = sorted(prgi_df["month"].unique())` (line 104). -/
def availableMonths (t : List PrgiRow) : List ℕ :=
  List.insertionSort (fun a b : ℕ => a ≤ b) ((t.map (·.month)).dedup)

/-- `last_3_months = available_months[-3:]` (line 105). -/
def last3Months (t : List PrgiRow) : List ℕ :=
  (availableMonths t).drop ((availableMonths t).length - 3)

/-- `recent_df = prgi_df[prgi_df["month"].isin(last_3_months)]`
(line 107). -/
def recentOf (t : List PrgiRow) : List PrgiRow :=
  t.filter fun r => decide (r.month ∈ last3Months t)

/-- The district group keys in the ascending order pandas `groupby`
uses (line 110). -/
def districtsOf (t : List PrgiRow) : List String :=
  List.insertionSort (fun a b : String => strLt a b = true ∨ a = b)
    (((recentOf t).map (·.district)).dedup)

/-- `recent_df.groupby("district")["prgi"].mean()` (lines 110–111). -/
def districtRisk (t : List PrgiRow) : List (String × ℚ) :=
  (districtsOf t).map fun d =>
    (d, listMean (((recentOf t).filter fun r =>
      decide (r.district = d)).map (·.prgi)))

/-- `latest_month = available_months[-1]` (line 114). -/
def latestMonth (t : List PrgiRow) : ℕ := (availableMonths t).getLastD 0

/-- `latest_df = prgi_df[prgi_df["month"] == latest_month]` (line 115). -/
def latestRows (t : List PrgiRow) : List PrgiRow :=
  t.filter fun r => decide (r.month = latestMonth t)

/-- `pd.merge(district_risk, latest_df, on="district", how="left")`
(line 119): every left row, joined with each matching latest-month row, or
with a missing `latest_prgi` when no latest-month row matches. -/
def mergedRisk (t : List PrgiRow) : List RiskEntry :=
  (districtRisk t).flatMap fun p =>
    match (latestRows t).filter (fun r => decide (r.district = p.1)) with
    | [] => [⟨p.1, p.2, none⟩]
    | ls => ls.map fun l => (⟨p.1, p.2, some l.prgi⟩ : RiskEntry)

/-- `get_top_high_risk_districts` (lines 95–126): empty input gives an
empty result; otherwise the merged table is sorted by `avg_prgi`
descending and truncated to `n` entries. -/
def get_top_high_risk_districts (t : List PrgiRow) (n : ℕ) :
    List RiskEntry :=
  if t = [] then []
  else
    (List.insertionSort (fun a b : RiskEntry => b.avg_prgi ≤ a.avg_prgi)
      (mergedRisk t)).take n

/-! ### Claim C2 -/

/-- A PRGI table with exactly 5 distinct months: district a has PRGI 0 in
months 1–2 and PRGI 1 in months 3–5; district b has PRGI 0 in months 1–4
and is absent from the latest month. -/
def t5ex : List PrgiRow :=
  [⟨1, "a", 1, 0, 0⟩, ⟨2, "a", 1, 0, 0⟩, ⟨3, "a", 1, 0, 1⟩,
   ⟨4, "a", 1, 0, 1⟩, ⟨5, "a", 1, 0, 1⟩,
   ⟨1, "b", 1, 0, 0⟩, ⟨2, "b", 1, 0, 0⟩, ⟨3, "b", 1, 0, 0⟩,
   ⟨4, "b", 1, 0, 0⟩]

/-- Evaluation of the ranker on `t5ex`: district a averages only its
latest 3 months (1, not the all-5 mean 3/5), and district b, absent from
month 5, gets a missing `latest_prgi`. -/
theorem C2_example_eval :
    get_top_high_risk_districts t5ex 10 =
      [⟨"a", 1, some 1⟩, ⟨"b", 0, none⟩] := by
  have hrecent : recentOf t5ex =
      [⟨3, "a", 1, 0, 1⟩, ⟨4, "a", 1, 0, 1⟩, ⟨5, "a", 1, 0, 1⟩,
       ⟨3, "b", 1, 0, 0⟩, ⟨4, "b", 1, 0, 0⟩] := by decide
  have hdistr : districtsOf t5ex = ["a", "b"] := by decide
  have hlr : latestRows t5ex = [⟨5, "a", 1, 0, 1⟩] := by decide
  have hfa : ([⟨3, "a", 1, 0, 1⟩, ⟨4, "a", 1, 0, 1⟩, ⟨5, "a", 1, 0, 1⟩,
       ⟨3, "b", 1, 0, 0⟩, ⟨4, "b", 1, 0, 0⟩] : List PrgiRow).filter
      (fun r => decide (r.district = "a")) =
      [⟨3, "a", 1, 0, 1⟩, ⟨4, "a", 1, 0, 1⟩, ⟨5, "a", 1, 0, 1⟩] := by decide
  have hfb : ([⟨3, "a", 1, 0, 1⟩, ⟨4, "a", 1, 0, 1⟩, ⟨5, "a", 1, 0, 1⟩,
       ⟨3, "b", 1, 0, 0⟩, ⟨4, "b", 1, 0, 0⟩] : List PrgiRow).filter
      (fun r => decide (r.district = "b")) =
      [⟨3, "b", 1, 0, 0⟩, ⟨4, "b", 1, 0, 0⟩] := by decide
  have hdrisk : districtRisk t5ex = [("a", 1), ("b", 0)] := by
    simp only [districtRisk, hdistr, hrecent, List.map_cons, List.map_nil,
      hfa, hfb]
    norm_num [listMean]
  have hma : ([⟨5, "a", 1, 0, 1⟩] : List PrgiRow).filter
      (fun r => decide (r.district = "a")) = [⟨5, "a", 1, 0, 1⟩] := by decide
  have hmb : ([⟨5, "a", 1, 0, 1⟩] : List PrgiRow).filter
      (fun r => decide (r.district = "b")) = [] := by decide
  have hmr : mergedRisk t5ex = [⟨"a", 1, some 1⟩, ⟨"b", 0, none⟩] := by
    simp only [mergedRisk, hdrisk, hlr, List.flatMap_cons, List.flatMap_nil,
      hma, hmb]
    norm_num
  simp only [get_top_high_risk_districts, hmr]
  rw [if_neg (by decide)]
  norm_num [List.insertionSort, List.orderedInsert]

/-- **C2.** For every PRGI table with at least 4 distinct months, the
ranker output is sorted by `avg_prgi` descending and truncated to `n`
entries; each entry's `avg_prgi` is the mean of that district's PRGI over
only the rows of the last 3 distinct sorted months; `latest_prgi` is
missing exactly when the district has no row in the single most recent
month and otherwise comes from such a row.  On the concrete 5-distinct-
month table the averages use only months 3–5. -/
theorem C2_risk_ranker_window :
    (∀ (t : List PrgiRow) (n : ℕ), 4 ≤ (availableMonths t).length →
      List.Sorted (fun a b : RiskEntry => b.avg_prgi ≤ a.avg_prgi)
        (get_top_high_risk_districts t n) ∧
      (get_top_high_risk_districts t n).length ≤ n ∧
      (∀ e ∈ get_top_high_risk_districts t n,
        e.avg_prgi = listMean (((recentOf t).filter fun r =>
          decide (r.district = e.district)).map (·.prgi)) ∧
        (e.latest_prgi = none → ∀ r ∈ t, r.district = e.district →
          r.month ≠ latestMonth t) ∧
        (∀ p, e.latest_prgi = some p → ∃ r ∈ t, r.district = e.district ∧
          r.month = latestMonth t ∧ r.prgi = p))) ∧
    get_top_high_risk_districts t5ex 10 =
      [⟨"a", 1, some 1⟩, ⟨"b", 0, none⟩] := by
  constructor
  · intro t n hmonths
    have ht : t ≠ [] := by
      intro h
      subst h
      simp [availableMonths] at hmonths
    have hout : get_top_high_risk_districts t n =
        (List.insertionSort (fun a b : RiskEntry => b.avg_prgi ≤ a.avg_prgi)
          (mergedRisk t)).take n := by
      unfold get_top_high_risk_districts
      rw [if_neg ht]
    haveI : IsTotal RiskEntry (fun a b => b.avg_prgi ≤ a.avg_prgi) :=
      ⟨fun a b => le_total b.avg_prgi a.avg_prgi⟩
    haveI : IsTrans RiskEntry (fun a b => b.avg_prgi ≤ a.avg_prgi) :=
      ⟨fun a b c hab hbc => le_trans hbc hab⟩
    refine ⟨?_, ?_, ?_⟩
    · rw [hout]
      exact (List.sorted_insertionSort _ _).sublist (List.take_sublist _ _)
    · rw [hout, List.length_take]
      exact min_le_left _ _
    · intro e he
      rw [hout] at he
      have he2 : e ∈ mergedRisk t :=
        (List.mem_insertionSort _).mp (List.mem_of_mem_take he)
      simp only [mergedRisk, List.mem_flatMap] at he2
      obtain ⟨p, hp, hmem⟩ := he2
      simp only [districtRisk, List.mem_map] at hp
      obtain ⟨d, -, rfl⟩ := hp
      simp only at hmem
      rcases hfil : (latestRows t).filter
          (fun r => decide (r.district = d)) with - | ⟨l0, ls⟩
      · rw [hfil] at hmem
        simp only [List.mem_singleton] at hmem
        subst hmem
        refine ⟨rfl, ?_, ?_⟩
        · intro hnone r hr hdist hmn
          have hrl : r ∈ latestRows t := by
            simp only [latestRows, List.mem_filter]
            exact ⟨hr, by simp [hmn]⟩
          have hnot := List.filter_eq_nil_iff.mp hfil r hrl
          simp only [decide_eq_true_eq] at hnot
          exact hnot hdist
        · intro p hp
          simp at hp
      · rw [hfil] at hmem
        simp only [List.mem_map] at hmem
        obtain ⟨l, hl, rfl⟩ := hmem
        have hl2 : l ∈ (latestRows t).filter
            (fun r => decide (r.district = d)) := by
          rw [hfil]
          exact hl
        have hl3 := List.mem_filter.mp hl2
        have hl4 := List.mem_filter.mp
          (show l ∈ t.filter (fun r => decide (r.month = latestMonth t))
            from hl3.1)
        refine ⟨rfl, ?_, ?_⟩
        · intro h
          simp at h
        · intro p hp
          simp only [Option.some.injEq] at hp
          exact ⟨l, hl4.1, decide_eq_true_eq.mp hl3.2,
            decide_eq_true_eq.mp hl4.2, hp⟩
  · exact C2_example_eval

/-- Witness for C2: the table with exactly 5 distinct months satisfies
the hypothesis and the ranker conclusions. -/
theorem C2_witness :
    4 ≤ (availableMonths t5ex).length ∧
    (get_top_high_risk_districts t5ex 10).length ≤ 10 := by
  exact ⟨by decide, (C2_risk_ranker_window.1 t5ex 10 (by decide)).2.1⟩

end CiviNigrani
